import Mathlib

/-!
Verification development for the `parameters` repository: two small C programs,
`fLPSparameters.c` (Convention A) and `SEGparameters.c` (Convention B), each of
which computes, for a target length and a focus mode, five rows of recommended
parameters (one per coverage level 2, 5, 10, 25, 40) from empirically fitted
power-law and logarithmic formulas, validates each row against fixed bounds and
prints either the parameters or an NA marker.

The embedding below follows the C sources. C `double` arithmetic is modelled
over `ℝ`, C `round` (round to nearest) by Mathlib's `round : ℝ → ℤ`,
`pow(x, y)` by real `rpow` and `log` by `Real.log`. The `target_length`
variable is an `int`, modelled as `ℤ`.
-/

/-- Focus enumeration of both programs: `enum calculation_type {DIVERSE, NARROW}`. -/
inductive Focus where
  | DIVERSE : Focus
  | NARROW : Focus
deriving DecidableEq

/-- The five fixed coverage levels of both programs, in output order. -/
inductive Cov where
  | c2 : Cov
  | c5 : Cov
  | c10 : Cov
  | c25 : Cov
  | c40 : Cov
deriving DecidableEq

/-- Numeric value of a coverage level (the percentage printed in the label). -/
def Cov.value : Cov → ℕ
  | .c2 => 2
  | .c5 => 5
  | .c10 => 10
  | .c25 => 25
  | .c40 => 40

/-- The list of all coverage levels in the order both programs emit them. -/
def allCovs : List Cov := [.c2, .c5, .c10, .c25, .c40]

namespace FLPS

/-- One computed parameter row of `fLPSparameters.c`: the globals
`small_m`, `big_m`, `threshold` (the exponent; the program displays
`pow(10.0, threshold)`), `max_m` and the local `cov` at the time
`output_parameters(max_m, cov)` is called.
Field order: `small_m`, `big_m`, `threshold`, `max_m`, `cov`. -/
structure Row where
  small_m : ℤ
  big_m : ℤ
  threshold : ℝ
  max_m : ℤ
  cov : ℕ

/-- DIVERSE 2% block: `big_m = round(2.534 * pow(target_length, 0.506))`,
`small_m = big_m - 2`, `threshold = -0.153*target_length - 3.994`, `max_m=100`. -/
noncomputable def d2big (t : ℤ) : ℤ := round (2.534 * (t : ℝ) ^ (0.506 : ℝ))

/-- DIVERSE 2% row. -/
noncomputable def d2 (t : ℤ) : Row :=
  ⟨d2big t - 2, d2big t, -0.153 * (t : ℝ) - 3.994, 100, 2⟩

/-- DIVERSE 5% block: `big_m = round(3.46 * pow(target_length, 0.508))`. -/
noncomputable def d5big (t : ℤ) : ℤ := round (3.46 * (t : ℝ) ^ (0.508 : ℝ))

/-- DIVERSE 5% row: `small_m = big_m - 4`, `threshold = -0.098*t - 3.305`, `max_m=200`. -/
noncomputable def d5 (t : ℤ) : Row :=
  ⟨d5big t - 4, d5big t, -0.098 * (t : ℝ) - 3.305, 200, 5⟩

/-- DIVERSE 10% block: `big_m = round(3.912 * pow(target_length, 0.543))`. -/
noncomputable def d10big (t : ℤ) : ℤ := round (3.912 * (t : ℝ) ^ (0.543 : ℝ))

/-- DIVERSE 10% row: `small_m = big_m - 10`, `threshold = -0.055*t - 3.635`, `max_m=250`. -/
noncomputable def d10 (t : ℤ) : Row :=
  ⟨d10big t - 10, d10big t, -0.055 * (t : ℝ) - 3.635, 250, 10⟩

/-- DIVERSE 25% `big_m`: piecewise on `target_length <= 105`. -/
noncomputable def d25big (t : ℤ) : ℤ :=
  if t ≤ 105 then round (5.647 * (t : ℝ) ^ (0.56 : ℝ))
  else round (6.096 * (t : ℝ) ^ (0.552 : ℝ))

/-- DIVERSE 25% `small_m`: an independent power-law fit below the split,
`big_m - 50` above it. -/
noncomputable def d25small (t : ℤ) : ℤ :=
  if t ≤ 105 then round (0.872 * (t : ℝ) ^ (0.797 : ℝ))
  else d25big t - 50

/-- DIVERSE 25% `threshold`: piecewise linear in `target_length`. -/
noncomputable def d25thr (t : ℤ) : ℝ :=
  if t ≤ 105 then -0.039 * (t : ℝ) - 2.381
  else -0.031 * (t : ℝ) - 2.93

/-- DIVERSE 25% row, `max_m=300`. -/
noncomputable def d25 (t : ℤ) : Row :=
  ⟨d25small t, d25big t, d25thr t, 300, 25⟩

/-- DIVERSE 40% `big_m`: piecewise on `target_length <= 105`. -/
noncomputable def d40big (t : ℤ) : ℤ :=
  if t ≤ 105 then round (9.82 * (t : ℝ) ^ (0.522 : ℝ))
  else round (11.126 * (t : ℝ) ^ (0.484 : ℝ))

/-- DIVERSE 40% `small_m`: an independent power-law fit below the split,
`big_m - 80` above it. -/
noncomputable def d40small (t : ℤ) : ℤ :=
  if t ≤ 105 then round (0.481 * (t : ℝ) ^ (0.876 : ℝ))
  else d40big t - 80

/-- DIVERSE 40% `threshold`: piecewise linear in `target_length`. -/
noncomputable def d40thr (t : ℤ) : ℝ :=
  if t ≤ 105 then -0.022 * (t : ℝ) - 2.709
  else -0.025 * (t : ℝ) - 2.762

/-- DIVERSE 40% row, `max_m=300`. -/
noncomputable def d40 (t : ℤ) : Row :=
  ⟨d40small t, d40big t, d40thr t, 300, 40⟩

/-- NARROW 2% block: `big_m = round(2.324 * pow(target_length, 0.539))`,
`small_m = big_m`, `threshold = -0.149*t - 3.883`, `max_m=100`. -/
noncomputable def n2big (t : ℤ) : ℤ := round (2.324 * (t : ℝ) ^ (0.539 : ℝ))

/-- NARROW 2% row. -/
noncomputable def n2 (t : ℤ) : Row :=
  ⟨n2big t, n2big t, -0.149 * (t : ℝ) - 3.883, 100, 2⟩

/-- NARROW 5% `big_m`. -/
noncomputable def n5big (t : ℤ) : ℤ := round (2.976 * (t : ℝ) ^ (0.556 : ℝ))

/-- NARROW 5% `threshold`: two linear branches at `t <= 28` and `t >= 33`,
their average in the gap. -/
noncomputable def n5thr (t : ℤ) : ℝ :=
  if t ≤ 28 then -0.127 * (t : ℝ) - 2.183
  else if 33 ≤ t then -0.09 * (t : ℝ) - 3.173
  else ((-0.127 * (t : ℝ) - 2.183) + (-0.09 * (t : ℝ) - 3.173)) / 2

/-- NARROW 5% row, `small_m = big_m`, `max_m=200`. -/
noncomputable def n5 (t : ℤ) : Row :=
  ⟨n5big t, n5big t, n5thr t, 200, 5⟩

/-- NARROW 10% `big_m`. -/
noncomputable def n10big (t : ℤ) : ℤ := round (3.493 * (t : ℝ) ^ (0.572 : ℝ))

/-- NARROW 10% row: `small_m = big_m`, `threshold = -0.058*t - 2.731`, `max_m=200`. -/
noncomputable def n10 (t : ℤ) : Row :=
  ⟨n10big t, n10big t, -0.058 * (t : ℝ) - 2.731, 200, 10⟩

/-- NARROW 25% `big_m`. -/
noncomputable def n25big (t : ℤ) : ℤ := round (3.394 * (t : ℝ) ^ (0.672 : ℝ))

/-- NARROW 25% `threshold`: constant `-4.0` up to `t <= 90`, linear beyond. -/
noncomputable def n25thr (t : ℤ) : ℝ :=
  if t ≤ 90 then -4.0
  else -0.028 * (t : ℝ) - 1.695

/-- NARROW 25% row, `small_m = big_m`, `max_m=300`. -/
noncomputable def n25 (t : ℤ) : Row :=
  ⟨n25big t, n25big t, n25thr t, 300, 25⟩

/-- NARROW 40% `big_m`. -/
noncomputable def n40big (t : ℤ) : ℤ := round (0.889 * (t : ℝ) ^ (0.977 : ℝ))

/-- NARROW 40% row: `small_m = big_m`, `threshold = -4.0`, `max_m=300`. -/
noncomputable def n40 (t : ℤ) : Row :=
  ⟨n40big t, n40big t, -4.0, 300, 40⟩

/-- The row computed by `main` of `fLPSparameters.c` for a given focus,
target length and coverage level. -/
noncomputable def row (f : Focus) (t : ℤ) : Cov → Row :=
  match f with
  | .DIVERSE => fun c => match c with
    | .c2 => d2 t
    | .c5 => d5 t
    | .c10 => d10 t
    | .c25 => d25 t
    | .c40 => d40 t
  | .NARROW => fun c => match c with
    | .c2 => n2 t
    | .c5 => n5 t
    | .c10 => n10 t
    | .c25 => n25 t
    | .c40 => n40 t

end FLPS

namespace FLPS

/-- An output line of `fLPSparameters.c` for one coverage level: either the
valid-parameter line `\t~cov%\t\t\t small_m big_m 10^threshold` (the
`threshold` field here is the exponent; the program prints
`pow(10.0, threshold)`), or the NA line, whose full text is
`\t~cov%\t\t\tNA [ target length <5 OR >upper_bound, OR t>0.001]`
and depends only on `cov` and `upper_bound`. -/
inductive Line where
  | valid (cov : ℕ) (small_m big_m : ℤ) (threshold : ℝ) : Line
  | na (cov : ℕ) (upper_bound : ℤ) : Line

/-- Coverage label carried by an output line. -/
def Line.covOf : Line → ℕ
  | .valid c _ _ _ => c
  | .na c _ => c

/-- The disjunction of the `if` conditions of `output_parameters` in
`fLPSparameters.c` that set `not_valid = 1`, in source order. -/
def notValid (f : Focus) (t : ℤ) (r : Row) : Prop :=
  t < 5 ∨ r.max_m < t ∨ (-3.0 : ℝ) < r.threshold ∨ r.small_m < 5 ∨
  (t < 50 ∧ f = .NARROW ∧ r.cov = 25) ∨
  (t < 100 ∧ f = .NARROW ∧ r.cov = 40) ∨
  (t ≤ 15 ∧ f = .DIVERSE ∧ r.cov = 40) ∨
  (t ≤ 10 ∧ f = .NARROW)

open Classical in
/-- `output_parameters(upper_bound, coverage)` of `fLPSparameters.c`, with the
incoming value of the global `not_valid` made explicit (`nv`): the line printed
for the row. In `main`, `not_valid` is `0` at every call: it is a zero-initialised
global before the first row and reset by `not_valid=0;` before each later row. -/
noncomputable def outputParametersFrom (nv : Bool) (f : Focus) (t : ℤ) (r : Row) : Line :=
  if nv = true ∨ notValid f t r then .na r.cov r.max_m
  else .valid r.cov r.small_m r.big_m r.threshold

/-- The line printed for a row when the incoming `not_valid` flag is clear,
as at every call site in `main`. -/
noncomputable def outputParameters (f : Focus) (t : ℤ) (r : Row) : Line :=
  outputParametersFrom false f t r

/-- The five per-coverage lines printed by `main` of `fLPSparameters.c`,
in source order, with the `not_valid` reset pattern of the source made
explicit: the flag is `0` (zero-initialised global) at the 2% call and reset
to `0` before each of the later four calls. -/
noncomputable def mainLines (f : Focus) (t : ℤ) : List Line :=
  [ outputParametersFrom false f t (row f t .c2),
    outputParametersFrom false f t (row f t .c5),
    outputParametersFrom false f t (row f t .c10),
    outputParametersFrom false f t (row f t .c25),
    outputParametersFrom false f t (row f t .c40) ]

/-- The bounds that the fixed NA text of `fLPSparameters.c` names:
`target length <5 OR >upper_bound, OR t>0.001` (the displayed threshold is
`10^threshold`, so `t>0.001` is `threshold > -3`). -/
def namedBound (t : ℤ) (upper_bound : ℤ) (thr : ℝ) : Prop :=
  t < 5 ∨ upper_bound < t ∨ (-3.0 : ℝ) < thr

/-- Handling of `-l` in `main`: `sscanf` stores the value into
`target_length`; if it is `<5` or `>300` a warning line goes to standard
error (modelled by the `Bool` component being `true`) and `target_length`
is reset to the default `15`. The first component is the resulting
`target_length`. -/
def processLOption (v : ℤ) : ℤ × Bool :=
  if v < 5 ∨ 300 < v then (15, true) else (v, false)

end FLPS

namespace SEG

/-- One computed parameter row of `SEGparameters.c`: the globals `L`, `K1`,
`K2`, `max_l` and the local `cov` at the time `output_parameters(max_l, cov)`
is called (`max_l` is declared `double` but holds the integer values 200, 250
or 300 and is passed to an `int` parameter, so it is modelled as `ℤ`).
Field order: `L`, `K1`, `K2`, `max_l`, `cov`. -/
structure SRow where
  L : ℤ
  K1 : ℝ
  K2 : ℝ
  max_l : ℤ
  cov : ℕ

/-- DIVERSE 2% window length: branches `t <= 35`, `t > 45`, else the average
of the two formulas, rounded. -/
noncomputable def sd2L (t : ℤ) : ℤ :=
  if t ≤ 35 then round (1.274 * (t : ℝ) ^ (0.823 : ℝ))
  else if 45 < t then round (1.004 * (t : ℝ) ^ (0.891 : ℝ))
  else round ((1.274 * (t : ℝ) ^ (0.823 : ℝ) + 1.004 * (t : ℝ) ^ (0.891 : ℝ)) / 2)

/-- DIVERSE 2% `K2`: branches `t <= 35`, `t > 45`, else the average. -/
noncomputable def sd2K2 (t : ℤ) : ℝ :=
  if t ≤ 35 then 0.701 * Real.log (t : ℝ) + 0.155
  else if 45 < t then 0.447 * Real.log (t : ℝ) + 1.038
  else ((0.701 * Real.log (t : ℝ) + 0.155) + (0.447 * Real.log (t : ℝ) + 1.038)) / 2

/-- DIVERSE 2% row: `K1 = K2 - 0.3`, `max_l = 200`. -/
noncomputable def sd2 (t : ℤ) : SRow :=
  ⟨sd2L t, sd2K2 t - 0.3, sd2K2 t, 200, 2⟩

/-- DIVERSE 5% `K2`: two branches at `t <= 50`. -/
noncomputable def sd5K2 (t : ℤ) : ℝ :=
  if t ≤ 50 then 0.716 * Real.log (t : ℝ) + 0.381
  else 0.337 * Real.log (t : ℝ) + 1.883

/-- DIVERSE 5% row: for `t <= 50`, `L = round(1.385*t^0.801)` and
`K1 = K2 - 0.3`; otherwise `L = round(0.747*t^0.912)` and `K1 = K2 - 0.4`.
`max_l = 300`. -/
noncomputable def sd5 (t : ℤ) : SRow :=
  if t ≤ 50 then ⟨round (1.385 * (t : ℝ) ^ (0.801 : ℝ)), sd5K2 t - 0.3, sd5K2 t, 300, 5⟩
  else ⟨round (0.747 * (t : ℝ) ^ (0.912 : ℝ)), sd5K2 t - 0.4, sd5K2 t, 300, 5⟩

/-- DIVERSE 10% window length: branches `t <= 45`, `t > 55`, else average. -/
noncomputable def sd10L (t : ℤ) : ℤ :=
  if t ≤ 45 then round (1.376 * (t : ℝ) ^ (0.799 : ℝ))
  else if 55 < t then round (1.298 * (t : ℝ) ^ (0.809 : ℝ))
  else round ((1.376 * (t : ℝ) ^ (0.799 : ℝ) + 1.298 * (t : ℝ) ^ (0.809 : ℝ)) / 2)

/-- DIVERSE 10% `K2`: branches `t <= 45`, `t > 55`, else average. -/
noncomputable def sd10K2 (t : ℤ) : ℝ :=
  if t ≤ 45 then 0.69 * Real.log (t : ℝ) + 0.625
  else if 55 < t then 0.347 * Real.log (t : ℝ) + 1.93
  else ((0.69 * Real.log (t : ℝ) + 0.625) + (0.347 * Real.log (t : ℝ) + 1.93)) / 2

/-- DIVERSE 10% row: `K1 = K2 - 0.3`, `max_l = 300`. -/
noncomputable def sd10 (t : ℤ) : SRow :=
  ⟨sd10L t, sd10K2 t - 0.3, sd10K2 t, 300, 10⟩

/-- DIVERSE 25% `K2`: branches `t <= 45`, `t > 55`, else average. -/
noncomputable def sd25K2 (t : ℤ) : ℝ :=
  if t ≤ 45 then 0.476 * Real.log (t : ℝ) + 1.566
  else if 55 < t then 0.314 * Real.log (t : ℝ) + 2.221
  else ((0.476 * Real.log (t : ℝ) + 1.566) + (0.314 * Real.log (t : ℝ) + 2.221)) / 2

/-- DIVERSE 25% row: `L = round(1.507*t^0.762)` in every branch,
`K1 = K2 - 0.3`, `max_l = 300`. -/
noncomputable def sd25 (t : ℤ) : SRow :=
  ⟨round (1.507 * (t : ℝ) ^ (0.762 : ℝ)), sd25K2 t - 0.3, sd25K2 t, 300, 25⟩

/-- DIVERSE 40% window length: branches `t <= 55`, `t > 65`, else average. -/
noncomputable def sd40L (t : ℤ) : ℤ :=
  if t ≤ 55 then round (1.491 * (t : ℝ) ^ (0.793 : ℝ))
  else if 65 < t then round (1.138 * (t : ℝ) ^ (0.86 : ℝ))
  else round ((1.491 * (t : ℝ) ^ (0.793 : ℝ) + 1.138 * (t : ℝ) ^ (0.86 : ℝ)) / 2)

/-- DIVERSE 40% `K2`: branches `t <= 55`, `t > 65`, else average. -/
noncomputable def sd40K2 (t : ℤ) : ℝ :=
  if t ≤ 55 then 0.581 * Real.log (t : ℝ) + 1.316
  else if 65 < t then 0.28 * Real.log (t : ℝ) + 2.442
  else ((0.581 * Real.log (t : ℝ) + 1.316) + (0.28 * Real.log (t : ℝ) + 2.442)) / 2

/-- DIVERSE 40% row: `K1 = K2 - 0.2`, `max_l = 300`. -/
noncomputable def sd40 (t : ℤ) : SRow :=
  ⟨sd40L t, sd40K2 t - 0.2, sd40K2 t, 300, 40⟩

/-- NARROW 2% `K2`: in the NARROW branch `L = target_length` is set once and
never reassigned, and each `K2` formula takes `log(L)`; branches `t <= 45`,
`t > 55`, else average. -/
noncomputable def sn2K2 (t : ℤ) : ℝ :=
  if t ≤ 45 then 0.818 * Real.log (t : ℝ) - 0.245
  else if 55 < t then 0.418 * Real.log (t : ℝ) + 1.206
  else ((0.818 * Real.log (t : ℝ) - 0.245) + (0.418 * Real.log (t : ℝ) + 1.206)) / 2

/-- NARROW 2% row: `L = target_length`, `K1 = K2`, `max_l = 250`. -/
noncomputable def sn2 (t : ℤ) : SRow :=
  ⟨t, sn2K2 t, sn2K2 t, 250, 2⟩

/-- NARROW 5% `K2`. -/
noncomputable def sn5K2 (t : ℤ) : ℝ :=
  if t ≤ 45 then 0.824 * Real.log (t : ℝ) - 0.003
  else if 55 < t then 0.355 * Real.log (t : ℝ) + 1.731
  else ((0.824 * Real.log (t : ℝ) - 0.003) + (0.355 * Real.log (t : ℝ) + 1.731)) / 2

/-- NARROW 5% row: `L = target_length`, `K1 = K2`, `max_l = 300`. -/
noncomputable def sn5 (t : ℤ) : SRow :=
  ⟨t, sn5K2 t, sn5K2 t, 300, 5⟩

/-- NARROW 10% `K2`. -/
noncomputable def sn10K2 (t : ℤ) : ℝ :=
  if t ≤ 45 then 0.803 * Real.log (t : ℝ) + 0.251
  else if 55 < t then 0.3 * Real.log (t : ℝ) + 2.135
  else ((0.803 * Real.log (t : ℝ) + 0.251) + (0.3 * Real.log (t : ℝ) + 2.135)) / 2

/-- NARROW 10% row: `L = target_length`, `K1 = K2`, `max_l = 300`. -/
noncomputable def sn10 (t : ℤ) : SRow :=
  ⟨t, sn10K2 t, sn10K2 t, 300, 10⟩

/-- NARROW 25% `K2`. -/
noncomputable def sn25K2 (t : ℤ) : ℝ :=
  if t ≤ 45 then 0.788 * Real.log (t : ℝ) + 0.499
  else if 55 < t then 0.278 * Real.log (t : ℝ) + 2.405
  else ((0.788 * Real.log (t : ℝ) + 0.499) + (0.278 * Real.log (t : ℝ) + 2.405)) / 2

/-- NARROW 25% row: `L = target_length`, `K1 = K2`, `max_l = 300`. -/
noncomputable def sn25 (t : ℤ) : SRow :=
  ⟨t, sn25K2 t, sn25K2 t, 300, 25⟩

/-- NARROW 40% `K2`. -/
noncomputable def sn40K2 (t : ℤ) : ℝ :=
  if t ≤ 45 then 0.705 * Real.log (t : ℝ) + 0.887
  else if 55 < t then 0.257 * Real.log (t : ℝ) + 2.596
  else ((0.705 * Real.log (t : ℝ) + 0.887) + (0.257 * Real.log (t : ℝ) + 2.596)) / 2

/-- NARROW 40% row: `L = target_length`, `K1 = K2`, `max_l = 250`. -/
noncomputable def sn40 (t : ℤ) : SRow :=
  ⟨t, sn40K2 t, sn40K2 t, 250, 40⟩

/-- The row computed by `main` of `SEGparameters.c` for a given focus,
target length and coverage level. -/
noncomputable def row (f : Focus) (t : ℤ) : Cov → SRow :=
  match f with
  | .DIVERSE => fun c => match c with
    | .c2 => sd2 t
    | .c5 => sd5 t
    | .c10 => sd10 t
    | .c25 => sd25 t
    | .c40 => sd40 t
  | .NARROW => fun c => match c with
    | .c2 => sn2 t
    | .c5 => sn5 t
    | .c10 => sn10 t
    | .c25 => sn25 t
    | .c40 => sn40 t

/-- An output line of `SEGparameters.c` for one coverage level: the valid
line `\t~cov%\t\t\t L K1 K2`, the generic NA line whose full text is
`\t~cov%\t\t\tNA [ target length <5 OR >upper_bound, OR K2>4.2]`, or the
special NA line `\t~cov%\t\t\tNA [ target length <10 OR >upper_bound, OR
K2>4.2]` printed only in the DIVERSE / 40% / `target_length<10` case. -/
inductive Line where
  | valid (cov : ℕ) (L : ℤ) (K1 K2 : ℝ) : Line
  | na (cov : ℕ) (upper_bound : ℤ) : Line
  | naSpecial (cov : ℕ) (upper_bound : ℤ) : Line

/-- Coverage label carried by an output line. -/
def Line.covOf : Line → ℕ
  | .valid c _ _ _ => c
  | .na c _ => c
  | .naSpecial c _ => c

/-- The disjunction of the conditions of `output_parameters` in
`SEGparameters.c` that set `not_valid = 1`, in source order (the third is the
special case that also prints its own NA line and sets `a = 1`). -/
def notValid (f : Focus) (t : ℤ) (r : SRow) : Prop :=
  t < 5 ∨ r.max_l < t ∨ (4.2 : ℝ) < r.K2 ∨
  (r.cov = 40 ∧ f = .DIVERSE ∧ t < 10)

open Classical in
/-- `output_parameters(upper_bound, coverage)` of `SEGparameters.c`, with the
incoming value of the global `not_valid` made explicit (`nv`): when the
special DIVERSE / 40% / `target_length<10` case fires it prints its own NA
line, sets `a=1` and `not_valid=1`, so neither the valid line nor the generic
NA line is printed; otherwise the generic NA line is printed when `not_valid`
ends up set, and the valid line when it does not. In `main`, `not_valid` is
`0` at every call (zero-initialised global, then `not_valid=0;` before each
later row). -/
noncomputable def outputParametersFrom (nv : Bool) (f : Focus) (t : ℤ) (r : SRow) : Line :=
  if r.cov = 40 ∧ f = .DIVERSE ∧ t < 10 then .naSpecial r.cov r.max_l
  else if nv = true ∨ t < 5 ∨ r.max_l < t ∨ (4.2 : ℝ) < r.K2 then .na r.cov r.max_l
  else .valid r.cov r.L r.K1 r.K2

/-- The line printed for a row when the incoming `not_valid` flag is clear,
as at every call site in `main`. -/
noncomputable def outputParameters (f : Focus) (t : ℤ) (r : SRow) : Line :=
  outputParametersFrom false f t r

/-- The five per-coverage lines printed by `main` of `SEGparameters.c`, in
source order, with the `not_valid` reset pattern of the source made explicit. -/
noncomputable def mainLines (f : Focus) (t : ℤ) : List Line :=
  [ outputParametersFrom false f t (row f t .c2),
    outputParametersFrom false f t (row f t .c5),
    outputParametersFrom false f t (row f t .c10),
    outputParametersFrom false f t (row f t .c25),
    outputParametersFrom false f t (row f t .c40) ]

/-- The bounds that the generic NA text of `SEGparameters.c` names:
`target length <5 OR >upper_bound, OR K2>4.2`. -/
def namedBound (t : ℤ) (upper_bound : ℤ) (k2 : ℝ) : Prop :=
  t < 5 ∨ upper_bound < t ∨ (4.2 : ℝ) < k2

/-- Handling of `-l` in `main` of `SEGparameters.c` (identical to the fLPS
program): out-of-range values emit a warning to standard error (the `Bool`
component) and reset `target_length` to the default `15`. -/
def processLOption (v : ℤ) : ℤ × Bool :=
  if v < 5 ∨ 300 < v then (15, true) else (v, false)

end SEG

/-- Specification table for Convention A, DIVERSE (spec section 4.1): the
`big_m` formula per coverage level, written from the spec's words, to be
compared with the embedding of the source. -/
noncomputable def specA_diverse_big (c : Cov) (t : ℤ) : ℤ :=
  match c with
  | .c2 => round (2.534 * (t : ℝ) ^ (0.506 : ℝ))
  | .c5 => round (3.46 * (t : ℝ) ^ (0.508 : ℝ))
  | .c10 => round (3.912 * (t : ℝ) ^ (0.543 : ℝ))
  | .c25 => if t ≤ 105 then round (5.647 * (t : ℝ) ^ (0.56 : ℝ))
            else round (6.096 * (t : ℝ) ^ (0.552 : ℝ))
  | .c40 => if t ≤ 105 then round (9.82 * (t : ℝ) ^ (0.522 : ℝ))
            else round (11.126 * (t : ℝ) ^ (0.484 : ℝ))

/-- Specification table for Convention A, DIVERSE: the `small_m` column —
`big_m` minus a fixed offset for the 2/5/10% levels, and for 25% and 40% an
independent power-law fit when `t <= 105` and `big_m` minus 50 resp. 80
above the split. -/
noncomputable def specA_diverse_small (c : Cov) (t : ℤ) : ℤ :=
  match c with
  | .c2 => specA_diverse_big .c2 t - 2
  | .c5 => specA_diverse_big .c5 t - 4
  | .c10 => specA_diverse_big .c10 t - 10
  | .c25 => if t ≤ 105 then round (0.872 * (t : ℝ) ^ (0.797 : ℝ))
            else specA_diverse_big .c25 t - 50
  | .c40 => if t ≤ 105 then round (0.481 * (t : ℝ) ^ (0.876 : ℝ))
            else specA_diverse_big .c40 t - 80

/-- Specification table for Convention A, DIVERSE: the `threshold_exponent`
column, a linear function of the target length, piecewise at `t <= 105` for
the 25% and 40% levels. -/
noncomputable def specA_diverse_thr (c : Cov) (t : ℤ) : ℝ :=
  match c with
  | .c2 => -0.153 * (t : ℝ) - 3.994
  | .c5 => -0.098 * (t : ℝ) - 3.305
  | .c10 => -0.055 * (t : ℝ) - 3.635
  | .c25 => if t ≤ 105 then -0.039 * (t : ℝ) - 2.381 else -0.031 * (t : ℝ) - 2.93
  | .c40 => if t ≤ 105 then -0.022 * (t : ℝ) - 2.709 else -0.025 * (t : ℝ) - 2.762

/-- Specification table for Convention A, DIVERSE: the max target length
column (100, 200, 250, 300, 300). -/
def specA_diverse_max (c : Cov) : ℤ :=
  match c with
  | .c2 => 100
  | .c5 => 200
  | .c10 => 250
  | .c25 => 300
  | .c40 => 300

/-- Specification table for Convention B, NARROW (spec section 4.2): the `K2`
formula per coverage level, written from the spec's words — a two-branch
logarithmic fit split at `t <= 45` versus `t > 55`, the gap
`45 < t <= 55` taking the arithmetic mean of the two branch formulas. -/
noncomputable def specB_narrow_K2 (c : Cov) (t : ℤ) : ℝ :=
  match c with
  | .c2 =>
    if t ≤ 45 then 0.818 * Real.log (t : ℝ) - 0.245
    else if 55 < t then 0.418 * Real.log (t : ℝ) + 1.206
    else ((0.818 * Real.log (t : ℝ) - 0.245) + (0.418 * Real.log (t : ℝ) + 1.206)) / 2
  | .c5 =>
    if t ≤ 45 then 0.824 * Real.log (t : ℝ) - 0.003
    else if 55 < t then 0.355 * Real.log (t : ℝ) + 1.731
    else ((0.824 * Real.log (t : ℝ) - 0.003) + (0.355 * Real.log (t : ℝ) + 1.731)) / 2
  | .c10 =>
    if t ≤ 45 then 0.803 * Real.log (t : ℝ) + 0.251
    else if 55 < t then 0.3 * Real.log (t : ℝ) + 2.135
    else ((0.803 * Real.log (t : ℝ) + 0.251) + (0.3 * Real.log (t : ℝ) + 2.135)) / 2
  | .c25 =>
    if t ≤ 45 then 0.788 * Real.log (t : ℝ) + 0.499
    else if 55 < t then 0.278 * Real.log (t : ℝ) + 2.405
    else ((0.788 * Real.log (t : ℝ) + 0.499) + (0.278 * Real.log (t : ℝ) + 2.405)) / 2
  | .c40 =>
    if t ≤ 45 then 0.705 * Real.log (t : ℝ) + 0.887
    else if 55 < t then 0.257 * Real.log (t : ℝ) + 2.596
    else ((0.705 * Real.log (t : ℝ) + 0.887) + (0.257 * Real.log (t : ℝ) + 2.596)) / 2

/-- Invalidity conditions for a Convention A row exactly as claim C3 lists
them, over the computed row `r`: length out of range, threshold exponent
above `-3.0`, `small_m` below 5, the three focus-and-coverage special rules,
and the NARROW blanket rule for `t <= 10`. -/
def specA_invalid (f : Focus) (t : ℤ) (c : Cov) (r : FLPS.Row) : Prop :=
  t < 5 ∨ r.max_m < t ∨ (-3.0 : ℝ) < r.threshold ∨ r.small_m < 5 ∨
  (f = .NARROW ∧ c = .c25 ∧ t < 50) ∨
  (f = .NARROW ∧ c = .c40 ∧ t < 100) ∨
  (f = .DIVERSE ∧ c = .c40 ∧ t ≤ 15) ∨
  (f = .NARROW ∧ t ≤ 10)

/-- The coverage stored in a computed fLPS row is the label of its level. -/
theorem FLPS.rowA_cov (f : Focus) (t : ℤ) (c : Cov) :
    (FLPS.row f t c).cov = c.value := by
  cases f <;> cases c <;> rfl

/-- The coverage stored in a computed SEG row is the label of its level. -/
theorem SEG.rowB_cov (f : Focus) (t : ℤ) (c : Cov) :
    (SEG.row f t c).cov = c.value := by
  cases f <;> cases c <;> try rfl
  unfold SEG.row SEG.sd5
  split <;> rfl

/-- The output line of a fLPS row carries the coverage of that row. -/
theorem FLPS.covOf_outA (nv : Bool) (f : Focus) (t : ℤ) (r : FLPS.Row) :
    (FLPS.outputParametersFrom nv f t r).covOf = r.cov := by
  unfold FLPS.outputParametersFrom
  split <;> rfl

/-- The output line of a SEG row carries the coverage of that row. -/
theorem SEG.covOf_outB (nv : Bool) (f : Focus) (t : ℤ) (r : SEG.SRow) :
    (SEG.outputParametersFrom nv f t r).covOf = r.cov := by
  unfold SEG.outputParametersFrom
  split
  · rfl
  · split <;> rfl

/-- The `K2` of the DIVERSE 5% SEG row is `sd5K2` in both branches. -/
theorem SEG.sd5_K2 (t : ℤ) : (SEG.sd5 t).K2 = SEG.sd5K2 t := by
  unfold SEG.sd5
  split <;> rfl

/-- A fLPS row prints as its NA line exactly when one of the
`output_parameters` conditions fires. -/
theorem FLPS.out_eq_na_iff (f : Focus) (t : ℤ) (r : FLPS.Row) :
    FLPS.outputParameters f t r = .na r.cov r.max_m ↔ FLPS.notValid f t r := by
  unfold FLPS.outputParameters FLPS.outputParametersFrom
  by_cases h : FLPS.notValid f t r
  · simp [h]
  · simp [h]

/-- C1: Convention A (fLPS), Focus=DIVERSE: for every target length, each
coverage row's `big_m`, `small_m`, `threshold_exponent` and max target length
are exactly the tabulated formulas of the specification, with the 25% and 40%
rows piecewise at `target_length <= 105` and `small_m` an independent
power-law fit below the split and `big_m - 50` resp. `big_m - 80` above it. -/
theorem c1_conventionA_diverse_formulas (t : ℤ) (c : Cov) :
    (FLPS.row .DIVERSE t c).big_m = specA_diverse_big c t ∧
    (FLPS.row .DIVERSE t c).small_m = specA_diverse_small c t ∧
    (FLPS.row .DIVERSE t c).threshold = specA_diverse_thr c t ∧
    (FLPS.row .DIVERSE t c).max_m = specA_diverse_max c := by
  cases c <;> exact ⟨rfl, rfl, rfl, rfl⟩

/-- C2: Convention B (SEG), Focus=NARROW: for every target length and
coverage level the window length equals the target length exactly, `K1`
equals `K2`, and `K2` is the tabulated logarithmic formula with branches at
`target_length <= 45` versus `> 55` and the arithmetic mean in the gap. -/
theorem c2_conventionB_narrow_formulas (t : ℤ) (c : Cov) :
    (SEG.row .NARROW t c).L = t ∧
    (SEG.row .NARROW t c).K1 = (SEG.row .NARROW t c).K2 ∧
    (SEG.row .NARROW t c).K2 = specB_narrow_K2 c t := by
  cases c <;> exact ⟨rfl, rfl, rfl⟩

/-- C6: Convention A (fLPS), Focus=NARROW: for every coverage level and every
target length, the computed `small_m` equals the computed `big_m` exactly. -/
theorem c6_conventionA_narrow_small_eq_big (t : ℤ) (c : Cov) :
    (FLPS.row .NARROW t c).small_m = (FLPS.row .NARROW t c).big_m := by
  cases c <;> rfl

/-- C7: Convention B (SEG): for every target length, both focus modes and
every coverage level, `K1 <= K2`; in NARROW mode `K1 = K2`, and in DIVERSE
mode `K1` is `K2` minus 0.2, 0.3 or 0.4 depending on the row. -/
theorem c7_conventionB_K1_le_K2 (f : Focus) (t : ℤ) (c : Cov) :
    (SEG.row f t c).K1 ≤ (SEG.row f t c).K2 ∧
    (SEG.row .NARROW t c).K1 = (SEG.row .NARROW t c).K2 ∧
    ((SEG.row .DIVERSE t c).K2 - (SEG.row .DIVERSE t c).K1 = 0.2 ∨
     (SEG.row .DIVERSE t c).K2 - (SEG.row .DIVERSE t c).K1 = 0.3 ∨
     (SEG.row .DIVERSE t c).K2 - (SEG.row .DIVERSE t c).K1 = 0.4) := by
  refine ⟨?_, ?_, ?_⟩
  · cases f <;> cases c <;>
      simp only [SEG.row, SEG.sd2, SEG.sd5, SEG.sd10, SEG.sd25, SEG.sd40,
        SEG.sn2, SEG.sn5, SEG.sn10, SEG.sn25, SEG.sn40] <;>
      (try split) <;> (try simp) <;> linarith
  · cases c <;> rfl
  · cases c <;>
      simp only [SEG.row, SEG.sd2, SEG.sd5, SEG.sd10, SEG.sd25, SEG.sd40] <;>
      (try split) <;> (try simp) <;>
      first
      | (left; ring_nf)
      | (right; left; ring_nf)
      | (right; right; ring_nf)

/-- C8: in both conventions, for every target length and focus, `main` prints
exactly 5 parameter lines, in coverage order 2, 5, 10, 25, 40, and the list
of lines equals the map of the independent per-row output function over the
coverage levels, so one row's invalidity never affects the computation or
output of the others. -/
theorem c8_five_rows_in_order (f : Focus) (t : ℤ) :
    FLPS.mainLines f t = allCovs.map (fun c => FLPS.outputParameters f t (FLPS.row f t c)) ∧
    (FLPS.mainLines f t).map FLPS.Line.covOf = [2, 5, 10, 25, 40] ∧
    (FLPS.mainLines f t).length = 5 ∧
    SEG.mainLines f t = allCovs.map (fun c => SEG.outputParameters f t (SEG.row f t c)) ∧
    (SEG.mainLines f t).map SEG.Line.covOf = [2, 5, 10, 25, 40] ∧
    (SEG.mainLines f t).length = 5 := by
  refine ⟨rfl, ?_, rfl, rfl, ?_, rfl⟩
  · simp [FLPS.mainLines, FLPS.covOf_outA, FLPS.rowA_cov, Cov.value]
  · simp [SEG.mainLines, SEG.covOf_outB, SEG.rowB_cov, Cov.value]

/-- C5: Convention B (SEG): with Focus=DIVERSE, coverage 40% and target
length below 10, the printed line is the distinct NA variant naming
`target length <10` (upper bound 300), and not the generic NA line. -/
theorem c5_seg_diverse40_special_na (t : ℤ) (h : t < 10) :
    SEG.outputParameters .DIVERSE t (SEG.row .DIVERSE t .c40) = .naSpecial 40 300 ∧
    SEG.outputParameters .DIVERSE t (SEG.row .DIVERSE t .c40) ≠ .na 40 300 := by
  have hout : SEG.outputParameters .DIVERSE t (SEG.row .DIVERSE t .c40) = .naSpecial 40 300 := by
    unfold SEG.outputParameters SEG.outputParametersFrom
    rw [if_pos]
    · rfl
    · exact ⟨rfl, rfl, h⟩
  refine ⟨hout, ?_⟩
  rw [hout]
  intro hcon
  exact SEG.Line.noConfusion hcon

/-- Witness for C5 at the target length 9 named by the claim. -/
theorem c5_seg_diverse40_special_na_witness :
    (9 : ℤ) < 10 ∧
    (SEG.outputParameters .DIVERSE 9 (SEG.row .DIVERSE 9 .c40) = .naSpecial 40 300 ∧
     SEG.outputParameters .DIVERSE 9 (SEG.row .DIVERSE 9 .c40) ≠ .na 40 300) :=
  ⟨by decide, c5_seg_diverse40_special_na 9 (by decide)⟩

/-- C9: in both conventions, a `-l` value outside `[5, 300]` makes the
program emit a warning to standard error (the `true` flag) and replace the
target length by the default 15. -/
theorem c9_l_out_of_range_resets_to_15 (v : ℤ) (h : v < 5 ∨ 300 < v) :
    FLPS.processLOption v = (15, true) ∧ SEG.processLOption v = (15, true) := by
  constructor
  · unfold FLPS.processLOption
    rw [if_pos h]
  · unfold SEG.processLOption
    rw [if_pos h]

/-- Witness for C9 at the boundary values 4 and 301 named by the claim. -/
theorem c9_l_out_of_range_resets_to_15_witness :
    ((4 : ℤ) < 5 ∨ (300 : ℤ) < 4) ∧
    (FLPS.processLOption 4 = (15, true) ∧ SEG.processLOption 4 = (15, true)) ∧
    ((301 : ℤ) < 5 ∨ (300 : ℤ) < 301) ∧
    (FLPS.processLOption 301 = (15, true) ∧ SEG.processLOption 301 = (15, true)) :=
  ⟨by decide, c9_l_out_of_range_resets_to_15 4 (by decide),
   by decide, c9_l_out_of_range_resets_to_15 301 (by decide)⟩

/-- The fLPS `output_parameters` conditions, evaluated on a computed row,
coincide with the invalidity list of claim C3. -/
theorem FLPS.notValid_iff_specA (f : Focus) (t : ℤ) (c : Cov) :
    FLPS.notValid f t (FLPS.row f t c) ↔ specA_invalid f t c (FLPS.row f t c) := by
  cases f <;> cases c <;>
    simp [FLPS.notValid, specA_invalid, FLPS.row, FLPS.d2, FLPS.d5, FLPS.d10,
      FLPS.d25, FLPS.d40, FLPS.n2, FLPS.n5, FLPS.n10, FLPS.n25, FLPS.n40] <;>
    tauto

/-- A fLPS row prints its parameters when no `output_parameters` condition
fires. -/
theorem FLPS.out_eq_valid (f : Focus) (t : ℤ) (r : FLPS.Row)
    (h : ¬ FLPS.notValid f t r) :
    FLPS.outputParameters f t r = .valid r.cov r.small_m r.big_m r.threshold := by
  unfold FLPS.outputParameters FLPS.outputParametersFrom
  rw [if_neg]
  simp [h]

/-- C3: Convention A (fLPS): a computed row is reported NA exactly when one
of the listed conditions holds (length out of range, threshold exponent above
-3.0, `small_m` below 5, or one of the focus/coverage special rules including
the NARROW blanket rule for target length at most 10); otherwise the row is
valid and its parameters are printed. With Focus=NARROW and target length 10
every coverage row is NA. -/
theorem c3_conventionA_validity (f : Focus) (t : ℤ) (c : Cov) :
    (FLPS.outputParameters f t (FLPS.row f t c) =
        .na (Cov.value c) (FLPS.row f t c).max_m ↔
      specA_invalid f t c (FLPS.row f t c)) ∧
    (¬ specA_invalid f t c (FLPS.row f t c) →
      FLPS.outputParameters f t (FLPS.row f t c) =
        .valid (Cov.value c) (FLPS.row f t c).small_m (FLPS.row f t c).big_m
          (FLPS.row f t c).threshold) ∧
    FLPS.outputParameters .NARROW 10 (FLPS.row .NARROW 10 c) =
      .na (Cov.value c) (FLPS.row .NARROW 10 c).max_m := by
  refine ⟨?_, ?_, ?_⟩
  · rw [← FLPS.rowA_cov f t c, FLPS.out_eq_na_iff]
    exact FLPS.notValid_iff_specA f t c
  · intro h
    rw [← FLPS.rowA_cov f t c]
    exact FLPS.out_eq_valid f t _ (fun hv => h ((FLPS.notValid_iff_specA f t c).mp hv))
  · rw [← FLPS.rowA_cov .NARROW 10 c, FLPS.out_eq_na_iff]
    exact Or.inr (Or.inr (Or.inr (Or.inr (Or.inr (Or.inr (Or.inr ⟨by norm_num, rfl⟩))))))

/-- Lower bound for the DIVERSE 2% `big_m` at target length 15:
`2.534 * 15^0.506` is at least `2.534 * sqrt 15 > 6.5`, so the rounded value
is at least 7. -/
theorem FLPS.d2big_15_ge : (7 : ℤ) ≤ FLPS.d2big 15 := by
  unfold FLPS.d2big
  rw [round_eq, Int.le_floor]
  have h1 : Real.sqrt 15 ≤ ((15 : ℤ) : ℝ) ^ (0.506 : ℝ) := by
    rw [Real.sqrt_eq_rpow]
    apply Real.rpow_le_rpow_of_exponent_le
    · push_cast
      norm_num
    · norm_num
  have h2 : (3.8 : ℝ) ≤ Real.sqrt 15 := by
    nlinarith [Real.sq_sqrt (show (0 : ℝ) ≤ 15 by norm_num), Real.sqrt_nonneg (15 : ℝ)]
  push_cast
  push_cast at h1
  linarith

/-- Witness for C3 at Focus=DIVERSE, target length 15, coverage 2%: none of
the invalidity conditions holds and the parameters are printed. -/
theorem c3_conventionA_validity_witness :
    ¬ specA_invalid .DIVERSE 15 .c2 (FLPS.row .DIVERSE 15 .c2) ∧
    FLPS.outputParameters .DIVERSE 15 (FLPS.row .DIVERSE 15 .c2) =
      .valid 2 (FLPS.row .DIVERSE 15 .c2).small_m (FLPS.row .DIVERSE 15 .c2).big_m
        (FLPS.row .DIVERSE 15 .c2).threshold := by
  have hnot : ¬ specA_invalid .DIVERSE 15 .c2 (FLPS.row .DIVERSE 15 .c2) := by
    have hb := FLPS.d2big_15_ge
    intro h
    rcases h with h | h | h | h | h | h | h | h
    · exact absurd h (by norm_num)
    · simp only [FLPS.row, FLPS.d2] at h
      exact absurd h (by norm_num)
    · simp only [FLPS.row, FLPS.d2] at h
      push_cast at h
      norm_num at h
    · simp only [FLPS.row, FLPS.d2] at h
      omega
    · exact Focus.noConfusion h.1
    · exact Focus.noConfusion h.1
    · exact Cov.noConfusion h.2.1
    · exact Focus.noConfusion h.1
  exact ⟨hnot, (c3_conventionA_validity .DIVERSE 15 .c2).2.1 hnot⟩

/-- Counterexample to C4: with Focus=NARROW and target length 10, the 2% row
of `fLPSparameters.c` is printed as the NA line (whose fixed text names only
the bounds `target length <5 OR >100, OR t>0.001`), yet none of those named
bounds is violated: the length 10 is within `[5, 100]` and the threshold
exponent `-0.149*10 - 3.883 = -5.373` is below `-3`; the row is invalid only
because of the NARROW blanket rule for target length at most 10, which the
message does not name. -/
theorem c4_na_names_violated_bound_counterexample :
    FLPS.outputParameters .NARROW 10 (FLPS.row .NARROW 10 .c2) = .na 2 100 ∧
    ¬ FLPS.namedBound 10 100 (FLPS.row .NARROW 10 .c2).threshold := by
  constructor
  · exact (FLPS.out_eq_na_iff .NARROW 10 (FLPS.row .NARROW 10 .c2)).mpr
      (Or.inr (Or.inr (Or.inr (Or.inr (Or.inr (Or.inr (Or.inr ⟨by norm_num, rfl⟩)))))))
  · intro h
    rcases h with h | h | h
    · exact absurd h (by norm_num)
    · exact absurd h (by norm_num)
    · simp only [FLPS.row, FLPS.n2] at h
      push_cast at h
      norm_num at h

/-- C4 amended: for every invalid row, in both conventions, the printed NA
line is the fixed generic marker determined only by the coverage label and
the row's upper bound (in Convention B possibly the special variant naming
`target length <10`), independent of which bound was actually violated. -/
theorem c4_na_message_amended :
    (∀ (f : Focus) (t : ℤ) (c : Cov), FLPS.notValid f t (FLPS.row f t c) →
      FLPS.outputParameters f t (FLPS.row f t c) =
        .na (Cov.value c) (FLPS.row f t c).max_m) ∧
    (∀ (f : Focus) (t : ℤ) (c : Cov), SEG.notValid f t (SEG.row f t c) →
      SEG.outputParameters f t (SEG.row f t c) =
        .na (Cov.value c) (SEG.row f t c).max_l ∨
      SEG.outputParameters f t (SEG.row f t c) =
        .naSpecial (Cov.value c) (SEG.row f t c).max_l) := by
  constructor
  · intro f t c h
    rw [← FLPS.rowA_cov f t c]
    exact (FLPS.out_eq_na_iff f t _).mpr h
  · intro f t c h
    rw [← SEG.rowB_cov f t c]
    unfold SEG.outputParameters SEG.outputParametersFrom
    by_cases hs : (SEG.row f t c).cov = 40 ∧ f = .DIVERSE ∧ t < 10
    · right
      rw [if_pos hs]
    · left
      rw [if_neg hs, if_pos]
      right
      unfold SEG.notValid at h
      rcases h with h | h | h | h
      · exact Or.inl h
      · exact Or.inr (Or.inl h)
      · exact Or.inr (Or.inr h)
      · exact absurd h hs

/-- Witness for the amended C4 at Focus=NARROW, target length 10, 2% row. -/
theorem c4_na_message_amended_witness :
    FLPS.notValid .NARROW 10 (FLPS.row .NARROW 10 .c2) ∧
    FLPS.outputParameters .NARROW 10 (FLPS.row .NARROW 10 .c2) =
      .na (Cov.value .c2) (FLPS.row .NARROW 10 .c2).max_m := by
  have h : FLPS.notValid .NARROW 10 (FLPS.row .NARROW 10 .c2) :=
    Or.inr (Or.inr (Or.inr (Or.inr (Or.inr (Or.inr (Or.inr ⟨by norm_num, rfl⟩))))))
  exact ⟨h, c4_na_message_amended.1 .NARROW 10 .c2 h⟩

/-- Bound on the logarithm of an integer below a power of two, through the
nine-digit upper bound on `log 2`. -/
theorem log_le_of_le_pow2 (t : ℤ) (n : ℕ) (b : ℝ) (h0 : 0 < t) (ht : t ≤ 2 ^ n)
    (hb : (n : ℝ) * 0.6931471808 ≤ b) : Real.log (t : ℝ) ≤ b := by
  have h1 : (t : ℝ) ≤ (2 : ℝ) ^ n := by exact_mod_cast ht
  have h2 : Real.log (t : ℝ) ≤ Real.log ((2 : ℝ) ^ n) :=
    Real.log_le_log (by exact_mod_cast h0) h1
  rw [Real.log_pow] at h2
  have h3 : (n : ℝ) * Real.log 2 ≤ (n : ℝ) * 0.6931471808 :=
    mul_le_mul_of_nonneg_left (le_of_lt Real.log_two_lt_d9) (Nat.cast_nonneg n)
  linarith

/-- The DIVERSE 2% `K2` never exceeds 4.2 for target lengths in range. -/
theorem SEG.sd2K2_le (t : ℤ) (h5 : 5 ≤ t) (h3 : t ≤ 300) : SEG.sd2K2 t ≤ 4.2 := by
  have h0 : (0 : ℤ) < t := by linarith
  unfold SEG.sd2K2
  split_ifs with h1 h2
  · linarith [log_le_of_le_pow2 t 6 4.1588830848 h0 (by norm_num; omega) (by norm_num)]
  · linarith [log_le_of_le_pow2 t 9 6.2383246272 h0 (by norm_num; omega) (by norm_num)]
  · linarith [log_le_of_le_pow2 t 6 4.1588830848 h0 (by norm_num; omega) (by norm_num)]

/-- The DIVERSE 5% `K2` never exceeds 4.2 for target lengths in range. -/
theorem SEG.sd5K2_le (t : ℤ) (h5 : 5 ≤ t) (h3 : t ≤ 300) : SEG.sd5K2 t ≤ 4.2 := by
  have h0 : (0 : ℤ) < t := by linarith
  unfold SEG.sd5K2
  split_ifs with h1
  · linarith [log_le_of_le_pow2 t 6 4.1588830848 h0 (by norm_num; omega) (by norm_num)]
  · linarith [log_le_of_le_pow2 t 9 6.2383246272 h0 (by norm_num; omega) (by norm_num)]

/-- The DIVERSE 10% `K2` never exceeds 4.2 for target lengths in range. -/
theorem SEG.sd10K2_le (t : ℤ) (h5 : 5 ≤ t) (h3 : t ≤ 300) : SEG.sd10K2 t ≤ 4.2 := by
  have h0 : (0 : ℤ) < t := by linarith
  unfold SEG.sd10K2
  split_ifs with h1 h2
  · linarith [log_le_of_le_pow2 t 6 4.1588830848 h0 (by norm_num; omega) (by norm_num)]
  · linarith [log_le_of_le_pow2 t 9 6.2383246272 h0 (by norm_num; omega) (by norm_num)]
  · linarith [log_le_of_le_pow2 t 6 4.1588830848 h0 (by norm_num; omega) (by norm_num)]

/-- The DIVERSE 25% `K2` never exceeds 4.2 for target lengths in range. -/
theorem SEG.sd25K2_le (t : ℤ) (h5 : 5 ≤ t) (h3 : t ≤ 300) : SEG.sd25K2 t ≤ 4.2 := by
  have h0 : (0 : ℤ) < t := by linarith
  unfold SEG.sd25K2
  split_ifs with h1 h2
  · linarith [log_le_of_le_pow2 t 6 4.1588830848 h0 (by norm_num; omega) (by norm_num)]
  · linarith [log_le_of_le_pow2 t 9 6.2383246272 h0 (by norm_num; omega) (by norm_num)]
  · linarith [log_le_of_le_pow2 t 6 4.1588830848 h0 (by norm_num; omega) (by norm_num)]

/-- The DIVERSE 40% `K2` never exceeds 4.2 for target lengths in range. -/
theorem SEG.sd40K2_le (t : ℤ) (h5 : 5 ≤ t) (h3 : t ≤ 300) : SEG.sd40K2 t ≤ 4.2 := by
  have h0 : (0 : ℤ) < t := by linarith
  unfold SEG.sd40K2
  split_ifs with h1 h2
  · linarith [log_le_of_le_pow2 t 6 4.1588830848 h0 (by norm_num; omega) (by norm_num)]
  · linarith [log_le_of_le_pow2 t 9 6.2383246272 h0 (by norm_num; omega) (by norm_num)]
  · linarith [log_le_of_le_pow2 t 7 4.8520302656 h0 (by norm_num; omega) (by norm_num)]

/-- The NARROW 2% `K2` never exceeds 4.2 for target lengths in range. -/
theorem SEG.sn2K2_le (t : ℤ) (h5 : 5 ≤ t) (h3 : t ≤ 300) : SEG.sn2K2 t ≤ 4.2 := by
  have h0 : (0 : ℤ) < t := by linarith
  unfold SEG.sn2K2
  split_ifs with h1 h2
  · linarith [log_le_of_le_pow2 t 6 4.1588830848 h0 (by norm_num; omega) (by norm_num)]
  · linarith [log_le_of_le_pow2 t 9 6.2383246272 h0 (by norm_num; omega) (by norm_num)]
  · linarith [log_le_of_le_pow2 t 6 4.1588830848 h0 (by norm_num; omega) (by norm_num)]

/-- The NARROW 5% `K2` never exceeds 4.2 for target lengths in range. -/
theorem SEG.sn5K2_le (t : ℤ) (h5 : 5 ≤ t) (h3 : t ≤ 300) : SEG.sn5K2 t ≤ 4.2 := by
  have h0 : (0 : ℤ) < t := by linarith
  unfold SEG.sn5K2
  split_ifs with h1 h2
  · linarith [log_le_of_le_pow2 t 6 4.1588830848 h0 (by norm_num; omega) (by norm_num)]
  · linarith [log_le_of_le_pow2 t 9 6.2383246272 h0 (by norm_num; omega) (by norm_num)]
  · linarith [log_le_of_le_pow2 t 6 4.1588830848 h0 (by norm_num; omega) (by norm_num)]

/-- The NARROW 10% `K2` never exceeds 4.2 for target lengths in range. -/
theorem SEG.sn10K2_le (t : ℤ) (h5 : 5 ≤ t) (h3 : t ≤ 300) : SEG.sn10K2 t ≤ 4.2 := by
  have h0 : (0 : ℤ) < t := by linarith
  unfold SEG.sn10K2
  split_ifs with h1 h2
  · linarith [log_le_of_le_pow2 t 6 4.1588830848 h0 (by norm_num; omega) (by norm_num)]
  · linarith [log_le_of_le_pow2 t 9 6.2383246272 h0 (by norm_num; omega) (by norm_num)]
  · linarith [log_le_of_le_pow2 t 6 4.1588830848 h0 (by norm_num; omega) (by norm_num)]

/-- The NARROW 25% `K2` never exceeds 4.2 for target lengths in range. -/
theorem SEG.sn25K2_le (t : ℤ) (h5 : 5 ≤ t) (h3 : t ≤ 300) : SEG.sn25K2 t ≤ 4.2 := by
  have h0 : (0 : ℤ) < t := by linarith
  unfold SEG.sn25K2
  split_ifs with h1 h2
  · linarith [log_le_of_le_pow2 t 6 4.1588830848 h0 (by norm_num; omega) (by norm_num)]
  · linarith [log_le_of_le_pow2 t 9 6.2383246272 h0 (by norm_num; omega) (by norm_num)]
  · linarith [log_le_of_le_pow2 t 6 4.1588830848 h0 (by norm_num; omega) (by norm_num)]

/-- The NARROW 40% `K2` never exceeds 4.2 for target lengths in range. -/
theorem SEG.sn40K2_le (t : ℤ) (h5 : 5 ≤ t) (h3 : t ≤ 300) : SEG.sn40K2 t ≤ 4.2 := by
  have h0 : (0 : ℤ) < t := by linarith
  unfold SEG.sn40K2
  split_ifs with h1 h2
  · linarith [log_le_of_le_pow2 t 6 4.1588830848 h0 (by norm_num; omega) (by norm_num)]
  · linarith [log_le_of_le_pow2 t 9 6.2383246272 h0 (by norm_num; omega) (by norm_num)]
  · linarith [log_le_of_le_pow2 t 6 4.1588830848 h0 (by norm_num; omega) (by norm_num)]

/-- C10: Convention B (SEG): for every target length in `[5, 300]`, both
focus modes and every coverage level, the computed `K2` is at most 4.2, so
the `K2 > 4.2` check never fires; any invalid row for an in-range target
length is caused by the row's length upper bound or by the
DIVERSE / 40% / `target length < 10` special rule. -/
theorem c10_seg_K2_within_bound (f : Focus) (t : ℤ) (c : Cov)
    (h5 : 5 ≤ t) (h3 : t ≤ 300) :
    (SEG.row f t c).K2 ≤ 4.2 ∧
    (SEG.notValid f t (SEG.row f t c) →
      (SEG.row f t c).max_l < t ∨ (f = .DIVERSE ∧ c = .c40 ∧ t < 10)) := by
  have hk : (SEG.row f t c).K2 ≤ 4.2 := by
    cases f <;> cases c
    · exact SEG.sd2K2_le t h5 h3
    · rw [show (SEG.row .DIVERSE t .c5).K2 = SEG.sd5K2 t from SEG.sd5_K2 t]
      exact SEG.sd5K2_le t h5 h3
    · exact SEG.sd10K2_le t h5 h3
    · exact SEG.sd25K2_le t h5 h3
    · exact SEG.sd40K2_le t h5 h3
    · exact SEG.sn2K2_le t h5 h3
    · exact SEG.sn5K2_le t h5 h3
    · exact SEG.sn10K2_le t h5 h3
    · exact SEG.sn25K2_le t h5 h3
    · exact SEG.sn40K2_le t h5 h3
  refine ⟨hk, ?_⟩
  intro h
  unfold SEG.notValid at h
  rcases h with h | h | h | h
  · exact absurd h (by omega)
  · exact Or.inl h
  · exact absurd h (not_lt.mpr hk)
  · right
    obtain ⟨hc40, hf, ht⟩ := h
    refine ⟨hf, ?_, ht⟩
    rw [SEG.rowB_cov f t c] at hc40
    cases c <;> simp [Cov.value] at hc40 <;> rfl

/-- Witness for C10 at Focus=DIVERSE, target length 15, coverage 2%. -/
theorem c10_seg_K2_within_bound_witness :
    ((5 : ℤ) ≤ 15 ∧ (15 : ℤ) ≤ 300) ∧
    ((SEG.row .DIVERSE 15 .c2).K2 ≤ 4.2 ∧
     (SEG.notValid .DIVERSE 15 (SEG.row .DIVERSE 15 .c2) →
       (SEG.row .DIVERSE 15 .c2).max_l < 15 ∨
       (Focus.DIVERSE = .DIVERSE ∧ Cov.c2 = .c40 ∧ (15 : ℤ) < 10))) :=
  ⟨⟨by decide, by decide⟩, c10_seg_K2_within_bound .DIVERSE 15 .c2 (by decide) (by decide)⟩
